import Mathlib

/-!
Verification of the library-catalog service (`src/main.py`, `src/app/schemas.py`)
against its natural-language specification.

The HTTP handlers are shallowly embedded as pure Lean functions over an explicit
store state.  SQLAlchemy queries (`.filter(...).first()`) become `List.find?`;
`HTTPException` becomes an explicit error value carrying the status code and the
detail string; handlers that mutate the store return the result together with the
store state after the request (on every error path the session is rolled back or
closed uncommitted, so the store is returned unchanged there).
-/

/-- An `HTTPException` raised by a handler: status code and detail message. -/
structure HTTPError where
  status : Nat
  detail : String
  deriving Repr, DecidableEq

/-- A stored book row: `books(id primary key, title, author, isbn)`
(table layout per the spec; rows are created by `create_book` in `src/main.py`). -/
structure Book where
  id : Nat
  title : String
  author : String
  isbn : String
  deriving Repr, DecidableEq

/-- Modelled from the spec: `models.py` is not under `src/`.  The users table is
`users(username unique, password_hash, permissions)`; the `permissions` column
value when the constructor is not given one (its store default) is modelled as
`none`. -/
structure UserRec where
  username : String
  hashed_password : String
  permissions : Option String
  deriving Repr, DecidableEq

/-- The book side of the persistent store: the `books` table plus the counter
from which the store assigns the next primary key. -/
structure BookDB where
  books : List Book
  nextId : Nat
  deriving Repr, DecidableEq

/-- The user side of the persistent store: the `users` table. -/
structure UserDB where
  users : List UserRec
  deriving Repr, DecidableEq

/-- Modelled from the spec: `auth.py` is not under `src/`.  The Credential Codec
hashes a password (`get_password_hash`); modelled as a deterministic injective
tagging so that `verify_password` succeeds exactly on the original password. -/
def get_password_hash (password : String) : String :=
  "bcrypt$" ++ password

/-- Modelled from the spec: `auth.py` is not under `src/`.  `verify_password`
returns `true` iff the password verifies against the stored hash. -/
def verify_password (password hash : String) : Bool :=
  hash == get_password_hash password

/-- Modelled from the spec: `auth.py` is not under `src/`.  The Token Service
issues a signed bearer token embedding the subject (username); modelled as a
deterministic function of the subject. -/
def create_access_token (subject : String) : String :=
  "jwt$" ++ subject

/-- A token response body `{access_token, token_type}` (`schemas.Token`). -/
structure Token where
  access_token : String
  token_type : String
  deriving Repr, DecidableEq

/-- A registration payload (`schemas.UserCreate` in `src/app/schemas.py`):
`username`, `password`, and an optional `permissions` string
(default `"read_book"` at the pydantic layer). -/
structure UserCreate where
  username : String
  password : String
  permissions : Option String
  deriving Repr, DecidableEq

/-- A validated create-book payload (`schemas.BookCreate`). -/
structure BookCreate where
  title : String
  author : String
  isbn : String
  deriving Repr, DecidableEq

/-- A partial-update payload (`schemas.BookUpdate`): each field is present in
the request (`some`) or unset (`none`); `model_dump(exclude_unset := true)`
keeps exactly the `some` fields. -/
structure BookUpdate where
  title : Option String
  author : Option String
  isbn : Option String
  deriving Repr, DecidableEq

/-- `POST /register` (`register` in `src/main.py`): reject when a user with the
same username exists, otherwise store `User(username, hashed_password)` — note
the constructor receives no `permissions` argument — and return a token. -/
def register (db : UserDB) (user : UserCreate) : Except HTTPError Token × UserDB :=
  match db.users.find? (fun u => u.username == user.username) with
  | some _ => (.error ⟨400, "Bu username allaqachon mavjud"⟩, db)
  | none =>
      let hashed_password := get_password_hash user.password
      let new_user : UserRec :=
        { username := user.username, hashed_password := hashed_password, permissions := none }
      (.ok { access_token := create_access_token user.username, token_type := "bearer" },
       { users := db.users ++ [new_user] })

/-- The detail string of the login failure (same for unknown username and wrong
password): "Noto'g'ri username yoki parol". -/
def loginErrorDetail : String := "Noto\x27g\x27ri username yoki parol"

/-- `POST /login` (`login` in `src/main.py`): look up the user by username; if
absent or the password does not verify, raise 401 with one shared message;
otherwise issue a token for the username. -/
def login (db : UserDB) (username password : String) : Except HTTPError Token :=
  match db.users.find? (fun u => u.username == username) with
  | none => .error ⟨401, loginErrorDetail⟩
  | some user =>
      if verify_password password user.hashed_password then
        .ok { access_token := create_access_token user.username, token_type := "bearer" }
      else
        .error ⟨401, loginErrorDetail⟩

/-- `POST /books` (`create_book` in `src/main.py`): if any stored book has the
same raw ISBN, raise 400 and leave the store unchanged; otherwise insert a new
row with a store-assigned id and return it.  The `current_user` dependency is
received but never read by the handler body. -/
def create_book (db : BookDB) (book : BookCreate) (current_user : UserRec) :
    Except HTTPError Book × BookDB :=
  match db.books.find? (fun b => b.isbn == book.isbn) with
  | some _ => (.error ⟨400, "Bu ISBN raqamli kitob allaqachon mavjud"⟩, db)
  | none =>
      let db_book : Book :=
        { id := db.nextId, title := book.title, author := book.author, isbn := book.isbn }
      (.ok db_book, { books := db.books ++ [db_book], nextId := db.nextId + 1 })

/-- `DELETE /books/{book_id}` (`delete_book` in `src/main.py`): 404 when no row
has that id, otherwise remove the row and return its last state.  The
`current_user` dependency is received but never read by the handler body. -/
def delete_book (db : BookDB) (book_id : Nat) (current_user : UserRec) :
    Except HTTPError Book × BookDB :=
  match db.books.find? (fun b => b.id == book_id) with
  | none => (.error ⟨404, "Kitob topilmadi"⟩, db)
  | some book =>
      (.ok book, { books := db.books.filter (fun b => !(b.id == book_id)), nextId := db.nextId })

/-- `GET /books/isbn/{isbn}` (`get_book_by_isbn` in `src/main.py`): exact-match
lookup, 404 when absent.  A pure read: it performs no store mutation. -/
def get_book_by_isbn (db : BookDB) (isbn : String) : Except HTTPError Book :=
  match db.books.find? (fun b => b.isbn == isbn) with
  | none => .error ⟨404, "Kitob topilmadi"⟩
  | some book => .ok book

/-- `PUT /books/{book_id}` (`update_book` in `src/main.py`): 404 when the id is
absent; otherwise apply the supplied fields in declaration order (title, author,
isbn); when the supplied isbn differs from the book's current isbn and some
other row (different id) already holds it, raise 400; on any raised error the
uncommitted session changes are discarded, so the store is unchanged. -/
def update_book (db : BookDB) (book_id : Nat) (book_update : BookUpdate)
    (current_user : UserRec) : Except HTTPError Book × BookDB :=
  match db.books.find? (fun b => b.id == book_id) with
  | none => (.error ⟨404, "Kitob topilmadi"⟩, db)
  | some db_book =>
      let b1 := match book_update.title with
        | some t => { db_book with title := t }
        | none => db_book
      let b2 := match book_update.author with
        | some a => { b1 with author := a }
        | none => b1
      let conflict : Bool := match book_update.isbn with
        | none => false
        | some v =>
            if v ≠ db_book.isbn then
              match db.books.find? (fun b => b.isbn == v) with
              | some existing_book => existing_book.id ≠ book_id
              | none => false
            else false
      if conflict then
        (.error ⟨400, "Bu ISBN allaqachon mavjud"⟩, db)
      else
        let b3 := match book_update.isbn with
          | some v => { b2 with isbn := v }
          | none => b2
        (.ok b3, { books := db.books.map (fun b => if b.id == book_id then b3 else b),
                   nextId := db.nextId })

/-- `str.replace(c, '')` as used by the ISBN validators: remove every
occurrence of the character `c`. -/
def pyRemoveChar (s : String) (c : Char) : String :=
  ⟨s.data.filter (fun x => x ≠ c)⟩

/-- Python `str.isalnum()`: true iff the string is nonempty and every character
is alphanumeric. -/
def pyIsAlnum (s : String) : Bool :=
  !(s.data.isEmpty) && s.data.all Char.isAlphanum

/-- `BookCreate.validate_isbn` (`src/app/schemas.py`): strip hyphens and spaces,
then require Python `isalnum` of the remainder; return the original value. -/
def validate_isbn (v : String) : Except String String :=
  let v_clean := pyRemoveChar (pyRemoveChar v '-') ' '
  if pyIsAlnum v_clean then .ok v
  else .error "ISBN must only contain alphanumeric characters, hyphens, or spaces"

/-- `BookUpdate.validate_isbn` (`src/app/schemas.py`): `None` passes through
without any check; otherwise the same strip-then-`isalnum` rule. -/
def validate_isbn_update (v : Option String) : Except String (Option String) :=
  match v with
  | none => .ok none
  | some s => (validate_isbn s).map some

/-- The create-book request pipeline: pydantic validation of the payload happens
before the handler (and hence before any store access); a validation failure is
a 422 response with the store untouched. -/
def create_book_endpoint (db : BookDB) (book : BookCreate) (current_user : UserRec) :
    Except HTTPError Book × BookDB :=
  match validate_isbn book.isbn with
  | .error e => (.error ⟨422, e⟩, db)
  | .ok _ => create_book db book current_user

/-- Spec-side reading of "the remaining string is entirely alphanumeric
(letters and digits only)": every character of the string is alphanumeric
(vacuously true for the empty string).  Stated from the spec's words, to be
compared with the code's `pyIsAlnum`. -/
def entirelyAlnumSpec (s : String) : Bool :=
  s.data.all Char.isAlphanum

/-- The exception value caught by the boundary middleware: Python message text
and exception type name. -/
structure ExnInfo where
  msg : String
  typeName : String
  deriving Repr, DecidableEq

/-- A JSON response from the middleware: status code plus the
`{"detail": ..., "type": ...}` body. -/
structure MiddlewareResponse where
  status : Nat
  detail : String
  type : String
  deriving Repr, DecidableEq

/-- `catch_exceptions_middleware` (`src/main.py`): pass successful responses
through; convert any raised exception into a 400 response whose body is
`{"detail": str(e), "type": type(e).__name__}`. -/
def catch_exceptions_middleware (result : Except ExnInfo MiddlewareResponse) :
    MiddlewareResponse :=
  match result with
  | .ok response => response
  | .error e => { status := 400, detail := e.msg, type := e.typeName }

/-- C1: creating a book whose ISBN exactly equals an existing book's ISBN fails
with the 400 duplicate-ISBN error and leaves the store unchanged (same book
list, same id counter, so the count is unchanged). -/
theorem C1_create_duplicate_isbn_conflict
    (db : BookDB) (book : BookCreate) (u : UserRec)
    (h : ∃ b ∈ db.books, b.isbn = book.isbn) :
    create_book db book u =
      (.error ⟨400, "Bu ISBN raqamli kitob allaqachon mavjud"⟩, db) := by
  obtain ⟨b, hb, hisbn⟩ := h
  have hfind : (db.books.find? (fun b => b.isbn == book.isbn)).isSome := by
    rw [List.find?_isSome]
    exact ⟨b, hb, by simp [hisbn]⟩
  unfold create_book
  obtain ⟨x, hx⟩ := Option.isSome_iff_exists.mp hfind
  rw [hx]

/-- C1 witness: a concrete store holding ISBN "9781234567890" rejects a second
create with the same ISBN and is left unchanged. -/
theorem C1_create_duplicate_isbn_conflict_witness :
    create_book ⟨[⟨1, "Test Book 1", "Test Author 1", "9781234567890"⟩], 2⟩
        ⟨"Duplicate ISBN", "Some Author", "9781234567890"⟩
        ⟨"testuser", "h", some "read_book"⟩ =
      (.error ⟨400, "Bu ISBN raqamli kitob allaqachon mavjud"⟩,
       ⟨[⟨1, "Test Book 1", "Test Author 1", "9781234567890"⟩], 2⟩) :=
  C1_create_duplicate_isbn_conflict _ _ _
    ⟨⟨1, "Test Book 1", "Test Author 1", "9781234567890"⟩, by simp, rfl⟩

/-- In a list whose elements have pairwise distinct keys, two members with the
same key are equal. -/
theorem pairwise_key_unique {α κ : Type} (key : α → κ) {l : List α}
    (h : l.Pairwise (fun a b => key a ≠ key b)) {a b : α}
    (ha : a ∈ l) (hb : b ∈ l) (hk : key a = key b) : a = b := by
  induction l with
  | nil => cases ha
  | cons x xs ih =>
      rcases List.pairwise_cons.mp h with ⟨hx, hxs⟩
      rcases List.mem_cons.mp ha with ha1 | ha1 <;> rcases List.mem_cons.mp hb with hb1 | hb1
      · exact ha1.trans hb1.symm
      · exact absurd (ha1 ▸ hk) (hx b hb1)
      · exact absurd (hb1 ▸ hk.symm) (hx a ha1)
      · exact ih hxs ha1 hb1

/-- C9: deleting a book id absent from the store yields the 404 error with the
store unchanged, and looking up an ISBN absent from the store yields the 404
error (a pure read, so no store mutation at all). -/
theorem C9_notfound_no_side_effects (db : BookDB) (book_id : Nat) (u : UserRec)
    (isbn : String)
    (hid : ∀ b ∈ db.books, b.id ≠ book_id) (hisbn : ∀ b ∈ db.books, b.isbn ≠ isbn) :
    delete_book db book_id u = (.error ⟨404, "Kitob topilmadi"⟩, db) ∧
    get_book_by_isbn db isbn = .error ⟨404, "Kitob topilmadi"⟩ := by
  have h1 : db.books.find? (fun b => b.id == book_id) = none :=
    List.find?_eq_none.mpr (fun b hb => by simpa using hid b hb)
  have h2 : db.books.find? (fun b => b.isbn == isbn) = none :=
    List.find?_eq_none.mpr (fun b hb => by simpa using hisbn b hb)
  constructor
  · unfold delete_book; rw [h1]
  · unfold get_book_by_isbn; rw [h2]

/-- C9 witness: on a one-book store, deleting id 999 and looking up an unknown
ISBN both return 404 and leave the store as it was. -/
theorem C9_notfound_no_side_effects_witness :
    delete_book ⟨[⟨1, "Test Book 1", "Test Author 1", "9781234567890"⟩], 2⟩ 999
        ⟨"testuser", "h", some "read_book"⟩ =
      (.error ⟨404, "Kitob topilmadi"⟩,
       ⟨[⟨1, "Test Book 1", "Test Author 1", "9781234567890"⟩], 2⟩) ∧
    get_book_by_isbn ⟨[⟨1, "Test Book 1", "Test Author 1", "9781234567890"⟩], 2⟩
        "9999999999999" = .error ⟨404, "Kitob topilmadi"⟩ :=
  C9_notfound_no_side_effects _ _ _ _ (by decide) (by decide)

/-- `register` characterization on the taken-username branch. -/
theorem register_of_find_some {db : UserDB} {user : UserCreate} {x : UserRec}
    (hx : db.users.find? (fun u => u.username == user.username) = some x) :
    register db user = (.error ⟨400, "Bu username allaqachon mavjud"⟩, db) := by
  unfold register; rw [hx]

/-- `register` characterization on the fresh-username branch. -/
theorem register_of_find_none {db : UserDB} {user : UserCreate}
    (hx : db.users.find? (fun u => u.username == user.username) = none) :
    register db user =
      (.ok { access_token := create_access_token user.username, token_type := "bearer" },
       ⟨db.users ++ [⟨user.username, get_password_hash user.password, none⟩]⟩) := by
  unfold register; rw [hx]

/-- C5: whatever the two passwords (and permission fields) are, a second
registration with the same username fails with the 400 username-taken error,
and the store is exactly what it was after the first request. -/
theorem C5_register_twice_conflict (db : UserDB) (u1 u2 : UserCreate)
    (h : u2.username = u1.username) :
    (register (register db u1).2 u2).1 = .error ⟨400, "Bu username allaqachon mavjud"⟩ ∧
    (register (register db u1).2 u2).2 = (register db u1).2 := by
  rcases hfind : db.users.find? (fun u => u.username == u1.username) with _ | user
  · have hdb1 : (register db u1).2 =
        ⟨db.users ++ [⟨u1.username, get_password_hash u1.password, none⟩]⟩ := by
      rw [register_of_find_none hfind]
    have hmem : (⟨u1.username, get_password_hash u1.password, none⟩ : UserRec) ∈
        (register db u1).2.users := by
      rw [hdb1]; simp
    have hsome : ((register db u1).2.users.find? (fun u => u.username == u2.username)).isSome := by
      rw [List.find?_isSome]
      exact ⟨_, hmem, by simp [h]⟩
    obtain ⟨x, hx⟩ := Option.isSome_iff_exists.mp hsome
    rw [register_of_find_some hx]
    exact ⟨rfl, rfl⟩
  · have hdb1 : (register db u1).2 = db := by
      rw [register_of_find_some hfind]
    have hsome : ((register db u1).2.users.find? (fun u => u.username == u2.username)).isSome := by
      rw [hdb1, List.find?_isSome]
      exact ⟨user, List.mem_of_find?_eq_some hfind, by
        have := List.find?_some hfind
        simp only [beq_iff_eq] at this ⊢
        rw [h, this]⟩
    obtain ⟨x, hx⟩ := Option.isSome_iff_exists.mp hsome
    rw [register_of_find_some hx]
    exact ⟨rfl, rfl⟩

/-- C5 witness: registering "alice" twice with different passwords on an empty
store fails the second time with the 400 username-taken error. -/
theorem C5_register_twice_conflict_witness :
    (register (register ⟨[]⟩ ⟨"alice", "secret1", some "read_book"⟩).2
        ⟨"alice", "other2", none⟩).1 = .error ⟨400, "Bu username allaqachon mavjud"⟩ ∧
    (register (register ⟨[]⟩ ⟨"alice", "secret1", some "read_book"⟩).2
        ⟨"alice", "other2", none⟩).2 =
      (register ⟨[]⟩ ⟨"alice", "secret1", some "read_book"⟩).2 :=
  C5_register_twice_conflict _ _ _ rfl

/-- C4: on a store with distinct usernames, login succeeds iff some stored user
has the given username and the password verifies against that user's hash; and
every failure — unknown username or wrong password alike — is the very same
401 response value. -/
theorem C4_login_iff_verify (db : UserDB) (username password : String)
    (huniq : db.users.Pairwise (fun a b => a.username ≠ b.username)) :
    ((login db username password).isOk = true ↔
      ∃ u ∈ db.users, u.username = username ∧
        verify_password password u.hashed_password = true) ∧
    ((login db username password).isOk = false →
      login db username password = .error ⟨401, loginErrorDetail⟩) := by
  rcases hfind : db.users.find? (fun u => u.username == username) with _ | user
  · rw [List.find?_eq_none] at hfind
    constructor
    · constructor
      · intro hok
        exfalso
        unfold login at hok
        rw [List.find?_eq_none.mpr hfind] at hok
        simp [Except.isOk, Except.toBool] at hok
      · rintro ⟨u, hu, hname, _⟩
        exact absurd (by simp [hname]) (hfind u hu)
    · intro _
      unfold login
      rw [List.find?_eq_none.mpr hfind]
  · have hmem := List.mem_of_find?_eq_some hfind
    have hname : user.username = username := by
      have := List.find?_some hfind
      simpa using this
    rcases hverify : verify_password password user.hashed_password with _ | _
    · constructor
      · constructor
        · intro hok
          exfalso
          unfold login at hok
          rw [hfind] at hok
          simp [hverify, Except.isOk, Except.toBool] at hok
        · rintro ⟨u, hu, huname, hv⟩
          have : u = user := pairwise_key_unique UserRec.username huniq hu hmem
            (huname.trans hname.symm)
          rw [this] at hv
          rw [hverify] at hv
          cases hv
      · intro _
        unfold login
        rw [hfind]
        simp [hverify]
    · constructor
      · constructor
        · intro _
          exact ⟨user, hmem, hname, hverify⟩
        · intro _
          unfold login
          rw [hfind]
          simp [hverify, Except.isOk, Except.toBool]
      · intro hnotok
        exfalso
        unfold login at hnotok
        rw [hfind] at hnotok
        simp [hverify, Except.isOk, Except.toBool] at hnotok

/-- C4 witness: on a one-user store, login with the right password succeeds,
and login with a wrong password is not that success — the theorem applied to a
concrete store. -/
theorem C4_login_iff_verify_witness :
    ((login ⟨[⟨"testuser", get_password_hash "password123", some "read_book"⟩]⟩
        "testuser" "password123").isOk = true ↔
      ∃ u ∈ [(⟨"testuser", get_password_hash "password123", some "read_book"⟩ : UserRec)],
        u.username = "testuser" ∧
        verify_password "password123" u.hashed_password = true) ∧
    ((login ⟨[⟨"testuser", get_password_hash "password123", some "read_book"⟩]⟩
        "testuser" "password123").isOk = false →
      login ⟨[⟨"testuser", get_password_hash "password123", some "read_book"⟩]⟩
        "testuser" "password123" = .error ⟨401, loginErrorDetail⟩) :=
  C4_login_iff_verify _ _ _ (by simp)

/-- C10: the create, update, and delete handlers never read the acting user's
record, so two authenticated users whose records differ only in the
`permissions` field get identical results (same response, same resulting
store) for the same request against the same store state. -/
theorem C10_outcome_independent_of_permissions (db : BookDB) (book : BookCreate)
    (book_id : Nat) (upd : BookUpdate) (u1 u2 : UserRec)
    (hname : u1.username = u2.username)
    (hpw : u1.hashed_password = u2.hashed_password) :
    create_book db book u1 = create_book db book u2 ∧
    delete_book db book_id u1 = delete_book db book_id u2 ∧
    update_book db book_id upd u1 = update_book db book_id upd u2 :=
  ⟨rfl, rfl, rfl⟩

/-- C10 witness: two concrete users differing only in permissions get equal
results from all three mutation handlers. -/
theorem C10_outcome_independent_of_permissions_witness :
    create_book ⟨[], 1⟩ ⟨"A", "B", "9781234567890"⟩ ⟨"alice", "h", some "read_book"⟩ =
      create_book ⟨[], 1⟩ ⟨"A", "B", "9781234567890"⟩ ⟨"alice", "h", none⟩ ∧
    delete_book ⟨[], 1⟩ 1 ⟨"alice", "h", some "read_book"⟩ =
      delete_book ⟨[], 1⟩ 1 ⟨"alice", "h", none⟩ ∧
    update_book ⟨[], 1⟩ 1 ⟨none, none, none⟩ ⟨"alice", "h", some "read_book"⟩ =
      update_book ⟨[], 1⟩ 1 ⟨none, none, none⟩ ⟨"alice", "h", none⟩ :=
  C10_outcome_independent_of_permissions _ _ _ _ _ _ rfl rfl

/-- C7 counterexample: registering "alice" with permissions "delete_book" on an
empty store succeeds, but the stored record's permissions field is `none` (the
store default), not the supplied "delete_book" — `register` in `src/main.py`
constructs `User(username, hashed_password)` and drops the payload field. -/
theorem C7_counterexample :
    (register ⟨[]⟩ ⟨"alice", "secret1", some "delete_book"⟩).1.isOk = true ∧
    (register ⟨[]⟩ ⟨"alice", "secret1", some "delete_book"⟩).2.users.map
        UserRec.permissions = [none] ∧
    (none : Option String) ≠ some "delete_book" := by
  refine ⟨rfl, rfl, by decide⟩

/-- C7 (amended): every successful registration appends a record holding the
username and the hashed password, with the permissions field left at the store
default — independent of the permissions supplied in the payload. -/
theorem C7_register_drops_payload_permissions (db : UserDB) (user : UserCreate)
    (h : (register db user).1.isOk = true) :
    (register db user).2.users =
      db.users ++ [⟨user.username, get_password_hash user.password, none⟩] := by
  rcases hfind : db.users.find? (fun u => u.username == user.username) with _ | x
  · rw [register_of_find_none hfind]
  · rw [register_of_find_some hfind] at h
    simp [Except.isOk, Except.toBool] at h

/-- C7 (amended) witness: the theorem applied to the empty store and a payload
carrying permissions "delete_book". -/
theorem C7_register_drops_payload_permissions_witness :
    (register ⟨[]⟩ ⟨"bob", "secret1", some "delete_book"⟩).2.users =
      [] ++ [⟨"bob", get_password_hash "secret1", none⟩] :=
  C7_register_drops_payload_permissions _ _ rfl

/-- C8 counterexample: an unexpected exception whose message is raw SQL text is
converted by the boundary middleware into a response whose `detail` field is
exactly that raw exception text (and whose `type` is the exception class name)
— internal details are leaked, contrary to the claim. -/
theorem C8_counterexample :
    catch_exceptions_middleware
        (.error ⟨"(sqlite3.OperationalError) no such table: books", "OperationalError"⟩) =
      { status := 400, detail := "(sqlite3.OperationalError) no such table: books",
        type := "OperationalError" } := rfl

/-- C8 (amended): the boundary middleware does catch every unexpected exception
and converts it to a 400 client response (no unhandled propagation), but the
response body carries the raw exception message as `detail` and the exception
type name as `type`, rather than a generic message. -/
theorem C8_middleware_catches_but_leaks (e : ExnInfo) (r : MiddlewareResponse) :
    catch_exceptions_middleware (.error e) =
      { status := 400, detail := e.msg, type := e.typeName } ∧
    catch_exceptions_middleware (.ok r) = r :=
  ⟨rfl, rfl⟩

/-- Python `isalnum` of the stripped string is true iff the stripped string is
nonempty and every character is alphanumeric. -/
theorem pyIsAlnum_iff (s : String) :
    pyIsAlnum s = true ↔ s.data ≠ [] ∧ entirelyAlnumSpec s = true := by
  unfold pyIsAlnum entirelyAlnumSpec
  simp [List.isEmpty_iff]

/-- C6 counterexample: the input "----------" satisfies the 10–17 length bound,
its stripped form is entirely alphanumeric in the vacuous sense of the claim
(it is empty, so every character of it is a letter or digit), yet the validator
rejects it, because Python `"".isalnum()` is `False`. -/
theorem C6_counterexample :
    "----------".length = 10 ∧
    entirelyAlnumSpec (pyRemoveChar (pyRemoveChar "----------" '-') ' ') = true ∧
    validate_isbn "----------" =
      .error "ISBN must only contain alphanumeric characters, hyphens, or spaces" :=
  ⟨rfl, rfl, rfl⟩

/-- C6 (amended): after stripping hyphens and spaces, the validator accepts the
value iff the remaining string is NONEMPTY and entirely alphanumeric; on update
no check runs when the ISBN is absent, and a supplied ISBN is accepted exactly
as on create; on create the validator runs before the handler, so a validation
failure returns with the store untouched (no store access). -/
theorem C6_isbn_validation (v : String) (db : BookDB) (book : BookCreate)
    (u : UserRec) :
    (validate_isbn v = .ok v ↔
      (pyRemoveChar (pyRemoveChar v '-') ' ').data ≠ [] ∧
      entirelyAlnumSpec (pyRemoveChar (pyRemoveChar v '-') ' ') = true) ∧
    validate_isbn_update none = .ok none ∧
    (validate_isbn_update (some v) = .ok (some v) ↔ validate_isbn v = .ok v) ∧
    (∀ e, validate_isbn book.isbn = .error e →
      create_book_endpoint db book u = (.error ⟨422, e⟩, db)) := by
  refine ⟨?_, rfl, ?_, ?_⟩
  · unfold validate_isbn
    by_cases h : pyIsAlnum (pyRemoveChar (pyRemoveChar v '-') ' ') = true
    · rw [if_pos h]
      simp [(pyIsAlnum_iff _).mp h]
    · rw [if_neg h]
      rw [← pyIsAlnum_iff _]
      simp [h]
  · rcases hv : validate_isbn v with e | s
    · simp [validate_isbn_update, hv, Except.map]
    · have hs : s = v := by
        unfold validate_isbn at hv
        by_cases h : pyIsAlnum (pyRemoveChar (pyRemoveChar v '-') ' ') = true
        · rw [if_pos h] at hv
          injection hv with h2
          exact h2.symm
        · rw [if_neg h] at hv
          simp at hv
      subst hs
      simp [validate_isbn_update, hv, Except.map]
  · intro e he
    unfold create_book_endpoint
    rw [he]

/-- C6 witness: a create payload whose ISBN is ten question marks is rejected
by validation with a 422 before the (empty) store is touched. -/
theorem C6_isbn_validation_witness :
    create_book_endpoint ⟨[], 1⟩ ⟨"A", "B", "??????????"⟩ ⟨"alice", "h", none⟩ =
      (.error ⟨422, "ISBN must only contain alphanumeric characters, hyphens, or spaces"⟩,
       ⟨[], 1⟩) :=
  (C6_isbn_validation "??????????" ⟨[], 1⟩ ⟨"A", "B", "??????????"⟩
    ⟨"alice", "h", none⟩).2.2.2 _ rfl

/-- C2: on a store with pairwise-distinct ids and pairwise-distinct ISBNs, when
the updated book exists: supplying an ISBN held by a different record fails
with the 400 duplicate-ISBN error and leaves the store unchanged, while
supplying the book's own current ISBN succeeds (no self-conflict). -/
theorem C2_update_isbn_conflict (db : BookDB) (book_id : Nat) (upd : BookUpdate)
    (u : UserRec) (b0 : Book)
    (hids : db.books.Pairwise (fun a b => a.id ≠ b.id))
    (hisbns : db.books.Pairwise (fun a b => a.isbn ≠ b.isbn))
    (hfind : db.books.find? (fun b => b.id == book_id) = some b0) :
    (∀ v, upd.isbn = some v →
      (∃ ex ∈ db.books, ex.isbn = v ∧ ex.id ≠ book_id) →
      update_book db book_id upd u = (.error ⟨400, "Bu ISBN allaqachon mavjud"⟩, db)) ∧
    (upd.isbn = some b0.isbn → ∃ b, (update_book db book_id upd u).1 = .ok b) := by
  have hb0mem := List.mem_of_find?_eq_some hfind
  have hb0id : b0.id = book_id := by simpa using List.find?_some hfind
  constructor
  · rintro v hv ⟨ex, hexmem, hexisbn, hexid⟩
    have hvne : v ≠ b0.isbn := by
      intro hveq
      have hexb0 : ex = b0 :=
        pairwise_key_unique Book.isbn hisbns hexmem hb0mem (hexisbn.trans hveq)
      exact hexid (hexb0 ▸ hb0id)
    have hsome : (db.books.find? (fun b => b.isbn == v)).isSome := by
      rw [List.find?_isSome]
      exact ⟨ex, hexmem, by simp [hexisbn]⟩
    obtain ⟨ex2, hex2⟩ := Option.isSome_iff_exists.mp hsome
    have hex2mem := List.mem_of_find?_eq_some hex2
    have hex2isbn : ex2.isbn = v := by simpa using List.find?_some hex2
    have hex2eq : ex2 = ex :=
      pairwise_key_unique Book.isbn hisbns hex2mem hexmem (hex2isbn.trans hexisbn.symm)
    have hex2id : ex2.id ≠ book_id := hex2eq ▸ hexid
    unfold update_book
    rw [hfind]
    simp only [hv, hex2]
    simp [hvne, hex2id]
  · intro hv
    unfold update_book
    rw [hfind]
    simp [hv]

/-- C2 witness: on the two-book test store, updating book 1 to book 2's ISBN
fails with the 400 duplicate error and the store is unchanged, while updating
book 1 to its own ISBN succeeds. -/
theorem C2_update_isbn_conflict_witness :
    update_book ⟨[⟨1, "Test Book 1", "Test Author 1", "9781234567890"⟩,
                  ⟨2, "Test Book 2", "Test Author 2", "9789876543210"⟩], 3⟩ 1
        ⟨none, none, some "9789876543210"⟩ ⟨"testuser", "h", none⟩ =
      (.error ⟨400, "Bu ISBN allaqachon mavjud"⟩,
       ⟨[⟨1, "Test Book 1", "Test Author 1", "9781234567890"⟩,
         ⟨2, "Test Book 2", "Test Author 2", "9789876543210"⟩], 3⟩) ∧
    ∃ b, (update_book ⟨[⟨1, "Test Book 1", "Test Author 1", "9781234567890"⟩,
                        ⟨2, "Test Book 2", "Test Author 2", "9789876543210"⟩], 3⟩ 1
        ⟨none, none, some "9781234567890"⟩ ⟨"testuser", "h", none⟩).1 = .ok b :=
  ⟨(C2_update_isbn_conflict _ 1 ⟨none, none, some "9789876543210"⟩
      ⟨"testuser", "h", none⟩ ⟨1, "Test Book 1", "Test Author 1", "9781234567890"⟩
      (by decide) (by decide) (by decide)).1 _ rfl
      ⟨⟨2, "Test Book 2", "Test Author 2", "9789876543210"⟩, by decide, rfl, by decide⟩,
   (C2_update_isbn_conflict _ 1 ⟨none, none, some "9781234567890"⟩
      ⟨"testuser", "h", none⟩ ⟨1, "Test Book 1", "Test Author 1", "9781234567890"⟩
      (by decide) (by decide) (by decide)).2 rfl⟩

/-- C3: when the updated book exists, every successful update changes exactly
the supplied fields — each result field is the supplied value when present and
the current value otherwise, and the store rewrite touches only the row with
the given id; in particular a title-only payload always succeeds and leaves
author and isbn exactly as they were. -/
theorem C3_partial_update_frame (db : BookDB) (book_id : Nat) (upd : BookUpdate)
    (u : UserRec) (b0 : Book)
    (hfind : db.books.find? (fun b => b.id == book_id) = some b0) :
    (∀ b db2, update_book db book_id upd u = (.ok b, db2) →
      b.id = b0.id ∧
      b.title = upd.title.getD b0.title ∧
      b.author = upd.author.getD b0.author ∧
      b.isbn = upd.isbn.getD b0.isbn ∧
      db2 = ⟨db.books.map (fun x => if x.id == book_id then b else x), db.nextId⟩) ∧
    (∀ t, update_book db book_id ⟨some t, none, none⟩ u =
      (.ok ⟨b0.id, t, b0.author, b0.isbn⟩,
       ⟨db.books.map (fun x => if x.id == book_id then ⟨b0.id, t, b0.author, b0.isbn⟩ else x),
        db.nextId⟩)) := by
  constructor
  · intro b db2 hok
    unfold update_book at hok
    rw [hfind] at hok
    rcases upd with ⟨ot, oa, oi⟩
    dsimp only at hok
    split at hok
    · exact absurd hok (by simp)
    · rw [Prod.mk.injEq] at hok
      obtain ⟨h1, h2⟩ := hok
      injection h1 with h1
      subst h1
      refine ⟨?_, ?_, ?_, ?_, h2.symm⟩ <;>
        rcases ot with _ | t <;> rcases oa with _ | a <;> rcases oi with _ | i <;> rfl
  · intro t
    unfold update_book
    rw [hfind]
    dsimp only
    rfl

/-- C3 witness: on the two-book test store, a title-only update of book 1
changes its title and leaves author and isbn exactly as they were — the frame
theorem applied to a concrete successful update. -/
theorem C3_partial_update_frame_witness :
    (update_book ⟨[⟨1, "Test Book 1", "Test Author 1", "9781234567890"⟩,
                   ⟨2, "Test Book 2", "Test Author 2", "9789876543210"⟩], 3⟩ 1
        ⟨some "Updated Book Title", none, none⟩ ⟨"testuser", "h", none⟩ =
      (.ok ⟨1, "Updated Book Title", "Test Author 1", "9781234567890"⟩,
       ⟨[⟨1, "Updated Book Title", "Test Author 1", "9781234567890"⟩,
         ⟨2, "Test Book 2", "Test Author 2", "9789876543210"⟩], 3⟩)) :=
  ((C3_partial_update_frame _ 1 ⟨some "Updated Book Title", none, none⟩
      ⟨"testuser", "h", none⟩ ⟨1, "Test Book 1", "Test Author 1", "9781234567890"⟩
      (by decide)).2 "Updated Book Title").trans rfl
